import Mathlib

/-!
Shallow embedding of the ExposureGraph risk-scoring engine
(`src/scoring/calculator.py`), together with proofs of its specified
properties.  Strings are modelled through their character lists; the
Python string operations `lower`, `startswith` and substring containment
(`in`) are embedded as executable functions on `List Char`.
-/

namespace ExposureGraph

/-- Model of Python `str.startswith(pat)` restricted to the character data:
`listStartsWith pat s` is true when `pat` is a literal prefix of `s`. -/
def listStartsWith : List Char → List Char → Bool
  | [], _ => true
  | _ :: _, [] => false
  | c :: cs, d :: ds => c == d && listStartsWith cs ds

/-- Model of Python `pat in s` (substring containment) on character data:
true when `pat` occurs contiguously somewhere in `s`. -/
def listContainsSub (pat : List Char) : List Char → Bool
  | [] => listStartsWith pat []
  | c :: rest => listStartsWith pat (c :: rest) || listContainsSub pat rest

/-- Python `pat in s` on strings. -/
def strContains (s pat : String) : Bool := listContainsSub pat.data s.data

/-- Python `s.startswith(pat)` on strings. -/
def strStartsWith (s pat : String) : Bool := listStartsWith pat.data s.data

/-- Python `s.lower()`; ASCII-level lowercasing, matching the source's use on
ASCII header/URL values. -/
def strLower (s : String) : String := ⟨s.data.map Char.toLower⟩

/-- Python truthiness of a string: non-empty. -/
def strIsEmpty (s : String) : Bool := s.data.isEmpty

/-- One contributing risk factor, mirroring `RiskFactor` in
`src/graph/models.py`. -/
structure RiskFactor where
  name : String
  contribution : Nat
  explanation : String
deriving DecidableEq

/-- Result of one risk evaluation, mirroring `RiskResult`. -/
structure RiskResult where
  score : Nat
  factors : List RiskFactor
deriving DecidableEq

/-- Input signal, mirroring the `WebServiceData` dataclass in
`src/scoring/calculator.py`: `url` and `status_code` required, the rest
optional with `None` defaults. -/
structure WebServiceData where
  url : String
  status_code : Int
  title : Option String := none
  server : Option String := none
  technologies : Option (List String) := none
deriving DecidableEq

/-- The `OUTDATED_TECHNOLOGIES` table, in source (insertion) order. -/
def OUTDATED_TECHNOLOGIES : List (String × String) :=
  [ ("php/5", "PHP 5.x is end-of-life since January 2019"),
    ("php/7.0", "PHP 7.0 is end-of-life since December 2018"),
    ("php/7.1", "PHP 7.1 is end-of-life since December 2019"),
    ("php/7.2", "PHP 7.2 is end-of-life since November 2020"),
    ("apache/2.2", "Apache 2.2.x is end-of-life since July 2017"),
    ("nginx/1.1", "Nginx 1.1x is significantly outdated"),
    ("nginx/1.0", "Nginx 1.0x is significantly outdated"),
    ("openssl/1.0", "OpenSSL 1.0.x is end-of-life since December 2019"),
    ("jquery/1.", "jQuery 1.x has known security vulnerabilities"),
    ("jquery/2.", "jQuery 2.x has known security vulnerabilities"),
    ("angular/1.", "AngularJS 1.x is end-of-life since December 2021"),
    ("node/8", "Node.js 8 is end-of-life since December 2019"),
    ("node/10", "Node.js 10 is end-of-life since April 2021"),
    ("node/12", "Node.js 12 is end-of-life since April 2022"),
    ("python/2", "Python 2 is end-of-life since January 2020"),
    ("tomcat/7", "Apache Tomcat 7 is end-of-life"),
    ("tomcat/8.0", "Apache Tomcat 8.0 is end-of-life"),
    ("iis/6", "IIS 6 is end-of-life"),
    ("iis/7", "IIS 7 is end-of-life") ]

/-- The `NON_PROD_INDICATORS` list, in source order. -/
def NON_PROD_INDICATORS : List String :=
  ["staging", "dev", "test", "uat", "sandbox", "demo", "qa", "preprod"]

/-- The code-point ranges of Unicode general category Nd (decimal digits),
as tabulated by the CPython runtime (Unicode 14.0).  Python's regex `\d` on
`str` patterns matches exactly these characters — not only ASCII `0-9`. -/
def ND_DIGIT_RANGES : List (Nat × Nat) :=
  [ (0x30, 0x39), (0x660, 0x669), (0x6F0, 0x6F9), (0x7C0, 0x7C9),
    (0x966, 0x96F), (0x9E6, 0x9EF), (0xA66, 0xA6F), (0xAE6, 0xAEF),
    (0xB66, 0xB6F), (0xBE6, 0xBEF), (0xC66, 0xC6F), (0xCE6, 0xCEF),
    (0xD66, 0xD6F), (0xDE6, 0xDEF), (0xE50, 0xE59), (0xED0, 0xED9),
    (0xF20, 0xF29), (0x1040, 0x1049), (0x1090, 0x1099), (0x17E0, 0x17E9),
    (0x1810, 0x1819), (0x1946, 0x194F), (0x19D0, 0x19D9), (0x1A80, 0x1A89),
    (0x1A90, 0x1A99), (0x1B50, 0x1B59), (0x1BB0, 0x1BB9), (0x1C40, 0x1C49),
    (0x1C50, 0x1C59), (0xA620, 0xA629), (0xA8D0, 0xA8D9), (0xA900, 0xA909),
    (0xA9D0, 0xA9D9), (0xA9F0, 0xA9F9), (0xAA50, 0xAA59), (0xABF0, 0xABF9),
    (0xFF10, 0xFF19), (0x104A0, 0x104A9), (0x10D30, 0x10D39), (0x11066, 0x1106F),
    (0x110F0, 0x110F9), (0x11136, 0x1113F), (0x111D0, 0x111D9), (0x112F0, 0x112F9),
    (0x11450, 0x11459), (0x114D0, 0x114D9), (0x11650, 0x11659), (0x116C0, 0x116C9),
    (0x11730, 0x11739), (0x118E0, 0x118E9), (0x11950, 0x11959), (0x11C50, 0x11C59),
    (0x11D50, 0x11D59), (0x11DA0, 0x11DA9), (0x16A60, 0x16A69), (0x16AC0, 0x16AC9),
    (0x16B50, 0x16B59), (0x1D7CE, 0x1D7FF), (0x1E140, 0x1E149), (0x1E2F0, 0x1E2F9),
    (0x1E950, 0x1E959), (0x1FBF0, 0x1FBF9) ]

/-- Python regex `\d` on `str`: any Unicode decimal digit (category Nd). -/
def isRegexDigit (c : Char) : Bool :=
  ND_DIGIT_RANGES.any (fun pr => pr.1 ≤ c.toNat && c.toNat ≤ pr.2)

/-- Success of `VERSION_PATTERN.search` for the regex `/\d+[\.\d]*`:
the string contains a slash immediately followed by a Unicode decimal digit
(the trailing `[\.\d]*` never affects whether a match exists). -/
def hasSlashDigit : List Char → Bool
  | c :: d :: rest => (c == '/' && isRegexDigit d) || hasSlashDigit (d :: rest)
  | _ => false

/-- `RiskCalculator._has_version`. -/
def has_version (server_header : String) : Bool :=
  hasSlashDigit server_header.data

/-- `RiskCalculator._check_non_production`: first non-production indicator
(in list order) contained in the lowercased URL. -/
def check_non_production (url : String) : Option String :=
  NON_PROD_INDICATORS.find? (fun ind => strContains (strLower url) ind)

/-- The server-header phase of `RiskCalculator._check_outdated_tech`: if the
server value is present and truthy, scan the signature table in order for the
first pattern contained in the lowercased header. -/
def serverScan (server : Option String) : Option (String × String) :=
  match server with
  | some s =>
      if strIsEmpty s then none
      else OUTDATED_TECHNOLOGIES.find? (fun pr => strContains (strLower s) pr.1)
  | none => none

/-- The technologies phase of `_check_outdated_tech`: for each technology in
sequence order, scan the table in order; on a hit return the original
technology string with the pattern's reason. -/
def findTechMatch : List String → Option (String × String)
  | [] => none
  | t :: rest =>
      match OUTDATED_TECHNOLOGIES.find? (fun pr => strContains (strLower t) pr.1) with
      | some pr => some (t, pr.2)
      | none => findTechMatch rest

/-- `RiskCalculator._check_outdated_tech`: server header first, then the
technologies list (skipped when absent or empty, as Python truthiness does). -/
def check_outdated_tech (w : WebServiceData) : Option (String × String) :=
  match serverScan w.server with
  | some pr => some pr
  | none =>
      match w.technologies with
      | some techs => if techs.isEmpty then none else findTechMatch techs
      | none => none

/-- Factor 1 of `calculate_score`: Live Service (+30). -/
def liveFactor? (w : WebServiceData) : Option RiskFactor :=
  if w.status_code = 200 then
    some { name := "Live Service", contribution := 30,
           explanation := "Service responds with HTTP 200, confirming it is live and accessible" }
  else none

/-- Factor 2: Non-Production Exposed (+15). -/
def nonProdFactor? (w : WebServiceData) : Option RiskFactor :=
  (check_non_production w.url).map fun m =>
    { name := "Non-Production Exposed", contribution := 15,
      explanation := "URL contains \x27" ++ m ++ "\x27, indicating a non-production environment exposed to the internet" }

/-- Factor 3: Version Disclosure (+10); `server` must be present and truthy. -/
def versionFactor? (w : WebServiceData) : Option RiskFactor :=
  match w.server with
  | some s =>
      if !strIsEmpty s && has_version s then
        some { name := "Version Disclosure", contribution := 10,
               explanation := "Server header \x27" ++ s ++ "\x27 reveals version information, aiding attackers in finding known vulnerabilities" }
      else none
  | none => none

/-- Factor 4: Outdated Technology (+20). -/
def outdatedFactor? (w : WebServiceData) : Option RiskFactor :=
  (check_outdated_tech w).map fun pr =>
    { name := "Outdated Technology", contribution := 20,
      explanation := "Detected \x27" ++ pr.1 ++ "\x27: " ++ pr.2 }

/-- Factor 5: No HTTPS (+15); case-sensitive literal prefix check. -/
def noHttpsFactor? (w : WebServiceData) : Option RiskFactor :=
  if strStartsWith w.url "http://" then
    some { name := "No HTTPS", contribution := 15,
           explanation := "Service uses unencrypted HTTP, exposing data in transit to interception and tampering" }
  else none

/-- Factor 6: Directory Listing (+10); `title` must be present and truthy. -/
def dirListingFactor? (w : WebServiceData) : Option RiskFactor :=
  match w.title with
  | some t =>
      if !strIsEmpty t && strContains (strLower t) "index of" then
        some { name := "Directory Listing", contribution := 10,
               explanation := "Page title suggests directory listing is enabled, potentially exposing sensitive files and structure" }
      else none
  | none => none

/-- `RiskCalculator.BASE_SCORE`. -/
def BASE_SCORE : Nat := 20

/-- One accumulation step of `calculate_score`: when the rule triggered,
append its factor and add its contribution to the running score. -/
def addOpt (acc : List RiskFactor × Nat) : Option RiskFactor → List RiskFactor × Nat
  | some f => (acc.1 ++ [f], acc.2 + f.contribution)
  | none => acc

/-- The six rules of `calculate_score`, in source evaluation order. -/
def ruleList (w : WebServiceData) : List (Option RiskFactor) :=
  [liveFactor? w, nonProdFactor? w, versionFactor? w,
   outdatedFactor? w, noHttpsFactor? w, dirListingFactor? w]

/-- `RiskCalculator.calculate_score`: accumulate factors and score over the
six rules in order, then cap the score at 100. -/
def calculate_score (w : WebServiceData) : RiskResult :=
  let acc := (ruleList w).foldl addOpt ([], BASE_SCORE)
  { score := min acc.2 100, factors := acc.1 }

/-- Factors contributed by one optional rule result. -/
def optList : Option RiskFactor → List RiskFactor
  | some f => [f]
  | none => []

/-- Contribution of one optional rule result. -/
def contribOpt : Option RiskFactor → Nat
  | some f => f.contribution
  | none => 0

/-- All factors contributed by a list of optional rule results, in order. -/
def catOpts (l : List (Option RiskFactor)) : List RiskFactor :=
  (l.map optList).flatten

/-- Total contribution of a list of optional rule results. -/
def sumOpts (l : List (Option RiskFactor)) : Nat :=
  (l.map contribOpt).sum

/-- Sum of the contributions of a factor list. -/
def sumContrib (fs : List RiskFactor) : Nat :=
  (fs.map RiskFactor.contribution).sum

/-- The six rules' point values, in evaluation order. -/
def rulePoints : List Nat := [30, 15, 10, 20, 15, 10]

theorem foldl_addOpt (l : List (Option RiskFactor)) (fs : List RiskFactor) (s : Nat) :
    l.foldl addOpt (fs, s) = (fs ++ catOpts l, s + sumOpts l) := by
  induction l generalizing fs s with
  | nil => simp [catOpts, sumOpts]
  | cons o l ih =>
    cases o with
    | none => simp [List.foldl, addOpt, ih, catOpts, sumOpts, optList, contribOpt]
    | some f =>
      simp [List.foldl, addOpt, ih, catOpts, sumOpts, optList, contribOpt, Nat.add_assoc]

theorem calculate_score_factors (w : WebServiceData) :
    (calculate_score w).factors = catOpts (ruleList w) := by
  simp [calculate_score, foldl_addOpt]

theorem calculate_score_score (w : WebServiceData) :
    (calculate_score w).score = min (BASE_SCORE + sumOpts (ruleList w)) 100 := by
  simp [calculate_score, foldl_addOpt]

theorem sumContrib_catOpts (l : List (Option RiskFactor)) :
    sumContrib (catOpts l) = sumOpts l := by
  induction l with
  | nil => simp [catOpts, sumOpts, sumContrib]
  | cons o l ih =>
    cases o <;>
      simp [catOpts, sumOpts, sumContrib, optList, contribOpt] at ih ⊢ <;>
      omega

/-- C1: the returned score equals `min(100, BASE_SCORE + sum of the returned
factors' contributions)`, the cap being applied once at the end; hence the
score always lies between 20 and 100, and an empty factor list forces the
score to be exactly the base score 20. -/
theorem score_is_capped_base_plus_sum (w : WebServiceData) :
    (calculate_score w).score
        = min 100 (BASE_SCORE + sumContrib (calculate_score w).factors)
      ∧ 20 ≤ (calculate_score w).score
      ∧ (calculate_score w).score ≤ 100
      ∧ ((calculate_score w).factors = [] → (calculate_score w).score = BASE_SCORE) := by
  have hf := calculate_score_factors w
  have hs := calculate_score_score w
  refine ⟨?_, ?_, ?_, ?_⟩
  · rw [hs, hf, sumContrib_catOpts, Nat.min_comm]
  · rw [hs]; simp only [BASE_SCORE]; omega
  · rw [hs]; omega
  · intro h
    have h0 : sumOpts (ruleList w) = 0 := by
      rw [← sumContrib_catOpts, ← hf, h]; rfl
    rw [hs, h0]; simp [BASE_SCORE]

/-- Witness for C1 at a concrete no-trigger signal. -/
theorem score_is_capped_base_plus_sum_witness :
    (calculate_score
        { url := "https://clean.example.com", status_code := 404 }).score = BASE_SCORE :=
  (score_is_capped_base_plus_sum
      { url := "https://clean.example.com", status_code := 404 }).2.2.2 (by decide)

theorem strIsEmpty_nil : strIsEmpty "" = true := rfl

/-- C2: `calculate_score` is deterministic — two signals equal in every field
produce identical results (score and full ordered factor list). -/
theorem calculate_score_deterministic (w1 w2 : WebServiceData)
    (hu : w1.url = w2.url) (hc : w1.status_code = w2.status_code)
    (ht : w1.title = w2.title) (hv : w1.server = w2.server)
    (hte : w1.technologies = w2.technologies) :
    calculate_score w1 = calculate_score w2 := by
  cases w1; cases w2; simp_all

/-- Witness for C2 at a concrete pair of equal signals. -/
theorem calculate_score_deterministic_witness :
    calculate_score { url := "https://api.example.com", status_code := 200 }
      = calculate_score { url := "https://api.example.com", status_code := 200 } :=
  calculate_score_deterministic
    { url := "https://api.example.com", status_code := 200 }
    { url := "https://api.example.com", status_code := 200 }
    rfl rfl rfl rfl rfl

/-- C3: `calculate_score` is total — it returns a result for every well-typed
signal — and rules over optional fields treat an absent or empty field as
"does not trigger": absent/empty `server` silences Version Disclosure,
absent/empty `title` silences Directory Listing, and absent/empty `server`
together with absent/empty `technologies` silences Outdated Technology. -/
theorem calculate_score_total (w : WebServiceData) :
    (∃ r : RiskResult, calculate_score w = r)
      ∧ ((w.server = none ∨ w.server = some "") → versionFactor? w = none)
      ∧ ((w.title = none ∨ w.title = some "") → dirListingFactor? w = none)
      ∧ ((w.server = none ∨ w.server = some "") →
          (w.technologies = none ∨ w.technologies = some []) →
          outdatedFactor? w = none) := by
  obtain ⟨u, sc, t, sv, te⟩ := w
  refine ⟨⟨_, rfl⟩, ?_, ?_, ?_⟩
  · rintro (h | h) <;> simp_all [versionFactor?, strIsEmpty_nil]
  · rintro (h | h) <;> simp_all [dirListingFactor?, strIsEmpty_nil]
  · rintro (h | h) (h2 | h2) <;>
      simp_all [outdatedFactor?, check_outdated_tech, serverScan, strIsEmpty_nil]

/-- Witness for C3 at a signal whose optional fields are all empty. -/
theorem calculate_score_total_witness :
    versionFactor?
        { url := "http://x", status_code := 200, title := some "",
          server := some "", technologies := some [] } = none :=
  (calculate_score_total
      { url := "http://x", status_code := 200, title := some "",
        server := some "", technologies := some [] }).2.1 (Or.inr rfl)

/-- C10: setting `technologies` to `none` gives exactly the same result as
setting it to the empty list — absence is treated like emptiness and never
causes a failure. -/
theorem technologies_none_eq_empty (u : String) (sc : Int) (t s : Option String) :
    calculate_score { url := u, status_code := sc, title := t, server := s,
                      technologies := none }
      = calculate_score { url := u, status_code := sc, title := t, server := s,
                          technologies := some [] } := by
  have h : check_outdated_tech
        { url := u, status_code := sc, title := t, server := s, technologies := none }
      = check_outdated_tech
        { url := u, status_code := sc, title := t, server := s,
          technologies := some [] } := by
    unfold check_outdated_tech
    cases hh : serverScan s <;> simp
  simp [calculate_score, ruleList, liveFactor?, nonProdFactor?, versionFactor?,
        outdatedFactor?, noHttpsFactor?, dirListingFactor?, h]

theorem liveFactor_spec (w : WebServiceData) :
    ∀ f, liveFactor? w = some f → f.name = "Live Service" ∧ f.contribution = 30 := by
  intro f h; unfold liveFactor? at h; split at h
  · injection h with h; subst h; exact ⟨rfl, rfl⟩
  · exact Option.noConfusion h

theorem nonProdFactor_spec (w : WebServiceData) :
    ∀ f, nonProdFactor? w = some f →
      f.name = "Non-Production Exposed" ∧ f.contribution = 15 := by
  intro f h; unfold nonProdFactor? at h
  cases hc : check_non_production w.url <;> simp [hc] at h
  subst h; exact ⟨rfl, rfl⟩

theorem versionFactor_spec (w : WebServiceData) :
    ∀ f, versionFactor? w = some f →
      f.name = "Version Disclosure" ∧ f.contribution = 10 := by
  intro f h; unfold versionFactor? at h
  cases hs : w.server <;> simp [hs] at h
  obtain ⟨-, h⟩ := h
  subst h; exact ⟨rfl, rfl⟩

theorem outdatedFactor_spec (w : WebServiceData) :
    ∀ f, outdatedFactor? w = some f →
      f.name = "Outdated Technology" ∧ f.contribution = 20 := by
  intro f h; unfold outdatedFactor? at h
  cases hc : check_outdated_tech w <;> simp [hc] at h
  subst h; exact ⟨rfl, rfl⟩

theorem noHttpsFactor_spec (w : WebServiceData) :
    ∀ f, noHttpsFactor? w = some f → f.name = "No HTTPS" ∧ f.contribution = 15 := by
  intro f h; unfold noHttpsFactor? at h; split at h
  · injection h with h; subst h; exact ⟨rfl, rfl⟩
  · exact Option.noConfusion h

theorem dirListingFactor_spec (w : WebServiceData) :
    ∀ f, dirListingFactor? w = some f →
      f.name = "Directory Listing" ∧ f.contribution = 10 := by
  intro f h; unfold dirListingFactor? at h
  cases ht : w.title <;> simp [ht] at h
  obtain ⟨-, h⟩ := h
  subst h; exact ⟨rfl, rfl⟩

theorem countP_optList_name (o : Option RiskFactor) (nm nm' : String)
    (hname : ∀ f, o = some f → f.name = nm) (hne : nm ≠ nm') :
    (optList o).countP (fun f => f.name == nm') = 0 := by
  cases ho : o with
  | none => simp [optList]
  | some f =>
    have := hname f ho
    simp [optList, List.countP_cons, this, hne]

theorem countP_optList_self (o : Option RiskFactor) (nm : String)
    (hname : ∀ f, o = some f → f.name = nm) :
    (optList o).countP (fun f => f.name == nm) = if o.isSome then 1 else 0 := by
  cases ho : o with
  | none => simp [optList]
  | some f =>
    have := hname f ho
    simp [optList, List.countP_cons, this]

theorem factors_as_catOpts (w : WebServiceData) :
    (calculate_score w).factors
      = optList (liveFactor? w) ++ optList (nonProdFactor? w)
          ++ optList (versionFactor? w) ++ optList (outdatedFactor? w)
          ++ optList (noHttpsFactor? w) ++ optList (dirListingFactor? w) := by
  rw [calculate_score_factors]
  simp [catOpts, ruleList, List.append_assoc]

theorem noHttps_count (w : WebServiceData) :
    (calculate_score w).factors.countP (fun f => f.name == "No HTTPS")
      = if (noHttpsFactor? w).isSome then 1 else 0 := by
  rw [factors_as_catOpts]
  simp only [List.countP_append]
  rw [countP_optList_name _ _ _ (liveFactor_spec w · · |>.1) (by decide),
      countP_optList_name _ _ _ (nonProdFactor_spec w · · |>.1) (by decide),
      countP_optList_name _ _ _ (versionFactor_spec w · · |>.1) (by decide),
      countP_optList_name _ _ _ (outdatedFactor_spec w · · |>.1) (by decide),
      countP_optList_self _ _ (noHttpsFactor_spec w · · |>.1),
      countP_optList_name _ _ _ (dirListingFactor_spec w · · |>.1) (by decide)]
  omega

theorem version_count (w : WebServiceData) :
    (calculate_score w).factors.countP (fun f => f.name == "Version Disclosure")
      = if (versionFactor? w).isSome then 1 else 0 := by
  rw [factors_as_catOpts]
  simp only [List.countP_append]
  rw [countP_optList_name _ _ _ (liveFactor_spec w · · |>.1) (by decide),
      countP_optList_name _ _ _ (nonProdFactor_spec w · · |>.1) (by decide),
      countP_optList_self _ _ (versionFactor_spec w · · |>.1),
      countP_optList_name _ _ _ (outdatedFactor_spec w · · |>.1) (by decide),
      countP_optList_name _ _ _ (noHttpsFactor_spec w · · |>.1) (by decide),
      countP_optList_name _ _ _ (dirListingFactor_spec w · · |>.1) (by decide)]
  omega

theorem outdated_count (w : WebServiceData) :
    (calculate_score w).factors.countP (fun f => f.name == "Outdated Technology")
      = if (outdatedFactor? w).isSome then 1 else 0 := by
  rw [factors_as_catOpts]
  simp only [List.countP_append]
  rw [countP_optList_name _ _ _ (liveFactor_spec w · · |>.1) (by decide),
      countP_optList_name _ _ _ (nonProdFactor_spec w · · |>.1) (by decide),
      countP_optList_name _ _ _ (versionFactor_spec w · · |>.1) (by decide),
      countP_optList_self _ _ (outdatedFactor_spec w · · |>.1),
      countP_optList_name _ _ _ (noHttpsFactor_spec w · · |>.1) (by decide),
      countP_optList_name _ _ _ (dirListingFactor_spec w · · |>.1) (by decide)]
  omega

theorem listStartsWith_iff (pat : List Char) :
    ∀ s, listStartsWith pat s = true ↔ ∃ t, s = pat ++ t := by
  induction pat with
  | nil => intro s; simp [listStartsWith]
  | cons c cs ih =>
    intro s
    cases s with
    | nil => simp [listStartsWith]
    | cons d ds =>
      simp only [listStartsWith, Bool.and_eq_true, beq_iff_eq, ih, List.cons_append,
        List.cons.injEq]
      constructor
      · rintro ⟨rfl, t, rfl⟩; exact ⟨t, rfl, rfl⟩
      · rintro ⟨t, rfl, rfl⟩; exact ⟨rfl, t, rfl⟩

theorem listStartsWith_cons_same (c : Char) (cs ds : List Char) :
    listStartsWith (c :: cs) (c :: ds) = listStartsWith cs ds := by
  simp [listStartsWith]

theorem listStartsWith_cons_head (c d : Char) (cs ds : List Char) (h : (c == d) = false) :
    listStartsWith (c :: cs) (d :: ds) = false := by
  simp [listStartsWith, h]

/-- C5: the No HTTPS factor appears in the result exactly when the url starts
with the literal case-sensitive prefix `http://`; the factor is worth +15;
a url beginning `HTTP://` does not trigger it and a url beginning `https://`
never triggers it. -/
theorem no_https_rule (w : WebServiceData) :
    ((calculate_score w).factors.countP (fun f => f.name == "No HTTPS")
        = if strStartsWith w.url "http://" then 1 else 0)
      ∧ (∀ f, noHttpsFactor? w = some f → f.contribution = 15)
      ∧ (strStartsWith w.url "HTTP://" = true →
          (calculate_score w).factors.countP (fun f => f.name == "No HTTPS") = 0)
      ∧ (strStartsWith w.url "https://" = true →
          (calculate_score w).factors.countP (fun f => f.name == "No HTTPS") = 0) := by
  have hiff : (noHttpsFactor? w).isSome = strStartsWith w.url "http://" := by
    unfold noHttpsFactor?; split <;> simp_all
  have hcount := noHttps_count w
  refine ⟨by rw [hcount, hiff], fun f hf => (noHttpsFactor_spec w f hf).2, ?_, ?_⟩
  · intro h
    have hfalse : strStartsWith w.url "http://" = false := by
      unfold strStartsWith at h ⊢
      rw [listStartsWith_iff] at h
      obtain ⟨t, ht⟩ := h
      rw [show ("HTTP://").data = 'H' :: 'T' :: 'T' :: 'P' :: ':' :: '/' :: '/' :: [] from rfl] at ht
      rw [ht, show ("http://").data = 'h' :: 't' :: 't' :: 'p' :: ':' :: '/' :: '/' :: [] from rfl]
      simp only [List.cons_append, List.nil_append]
      exact listStartsWith_cons_head _ _ _ _ (by decide)
    rw [hcount, hiff, hfalse]; rfl
  · intro h
    have hfalse : strStartsWith w.url "http://" = false := by
      unfold strStartsWith at h ⊢
      rw [listStartsWith_iff] at h
      obtain ⟨t, ht⟩ := h
      rw [show ("https://").data = 'h' :: 't' :: 't' :: 'p' :: 's' :: ':' :: '/' :: '/' :: [] from rfl] at ht
      rw [ht, show ("http://").data = 'h' :: 't' :: 't' :: 'p' :: ':' :: '/' :: '/' :: [] from rfl]
      simp only [List.cons_append, List.nil_append, listStartsWith_cons_same]
      exact listStartsWith_cons_head _ _ _ _ (by decide)
    rw [hcount, hiff, hfalse]; rfl

/-- Witness for C5 at a concrete https signal. -/
theorem no_https_rule_witness :
    (calculate_score { url := "https://api.example.com", status_code := 404 }).factors.countP
        (fun f => f.name == "No HTTPS") = 0 :=
  (no_https_rule { url := "https://api.example.com", status_code := 404 }).2.2.2 (by decide)

theorem hasSlashDigit_nil : hasSlashDigit [] = false := rfl

theorem hasSlashDigit_single (c : Char) : hasSlashDigit [c] = false := rfl

theorem hasSlashDigit_cons2 (c d : Char) (rest : List Char) :
    hasSlashDigit (c :: d :: rest)
      = ((c == '/' && isRegexDigit d) || hasSlashDigit (d :: rest)) := rfl

theorem strIsEmpty_false_iff (s : String) : strIsEmpty s = false ↔ s ≠ "" := by
  obtain ⟨d⟩ := s
  cases d with
  | nil => simp [strIsEmpty]
  | cons c cs =>
    simp [strIsEmpty]
    intro h
    exact absurd (congrArg String.data h) (by simp)

theorem hasSlashDigit_iff (l : List Char) :
    hasSlashDigit l = true ↔
      ∃ pre d post, l = pre ++ '/' :: d :: post ∧ isRegexDigit d = true := by
  induction l with
  | nil =>
    rw [hasSlashDigit_nil]
    constructor
    · intro h; cases h
    · rintro ⟨pre, d, post, h, -⟩
      have := congrArg List.length h
      simp at this
      omega
  | cons c rest ih =>
    cases rest with
    | nil =>
      rw [hasSlashDigit_single]
      constructor
      · intro h; cases h
      · rintro ⟨pre, d, post, h, -⟩
        have := congrArg List.length h
        simp at this
        omega
    | cons d rest2 =>
      rw [hasSlashDigit_cons2]
      constructor
      · intro h
        cases (Bool.or_eq_true _ _).mp h with
        | inl hab =>
          obtain ⟨hc, hd⟩ := Bool.and_eq_true .. |>.mp hab
          rw [beq_iff_eq] at hc
          exact ⟨[], d, rest2, by rw [hc]; rfl, hd⟩
        | inr hb =>
          obtain ⟨pre, e, post, heq, he⟩ := ih.mp hb
          exact ⟨c :: pre, e, post, by rw [List.cons_append, ← heq], he⟩
      · rintro ⟨pre, e, post, heq, he⟩
        cases pre with
        | nil =>
          simp only [List.nil_append, List.cons.injEq] at heq
          obtain ⟨hc, hd, -⟩ := heq
          subst hc; subst hd
          simp [he]
        | cons p pre2 =>
          simp only [List.cons_append, List.cons.injEq] at heq
          obtain ⟨-, h2⟩ := heq
          have : hasSlashDigit (d :: rest2) = true := ih.mpr ⟨pre2, e, post, h2, he⟩
          simp [this]

/-- C7: Version Disclosure fires exactly when the server header is present,
non-empty and contains a slash immediately followed by a Unicode decimal
digit (Python regex `\d`, category Nd); it is worth
+10, is never influenced by the url, title or technologies fields, and
appears in the factor list exactly when it fires. -/
theorem version_disclosure_rule (w : WebServiceData) :
    ((versionFactor? w).isSome = true ↔
        ∃ s, w.server = some s ∧ s ≠ "" ∧ has_version s = true)
      ∧ (∀ s : String, has_version s = true ↔
          ∃ pre d post, s.data = pre ++ '/' :: d :: post ∧ isRegexDigit d = true)
      ∧ (∀ f, versionFactor? w = some f → f.contribution = 10)
      ∧ (∀ u t te, versionFactor?
            { url := u, status_code := w.status_code, title := t,
              server := w.server, technologies := te } = versionFactor? w)
      ∧ ((calculate_score w).factors.countP (fun f => f.name == "Version Disclosure")
          = if (versionFactor? w).isSome then 1 else 0) := by
  refine ⟨?_, fun s => hasSlashDigit_iff s.data,
    fun f hf => (versionFactor_spec w f hf).2, fun u t te => rfl, version_count w⟩
  unfold versionFactor?
  cases hs : w.server with
  | none => simp
  | some s =>
    cases he : strIsEmpty s with
    | false =>
      cases hv : has_version s with
      | false => simp [he, hv]
      | true =>
        simp [he, hv]
        exact (strIsEmpty_false_iff s).mp he
    | true =>
      simp [he]
      intro h
      exact absurd ((strIsEmpty_false_iff s).mpr h) (by simp [he])

/-- Witness for C7 at a concrete version-disclosing server header. -/
theorem version_disclosure_rule_witness :
    (versionFactor?
        { url := "https://a", status_code := 200,
          server := some "nginx/1.18.0" }).isSome = true :=
  (version_disclosure_rule
      { url := "https://a", status_code := 200, server := some "nginx/1.18.0" }).1.mpr
    ⟨"nginx/1.18.0", rfl, by decide, by decide⟩

theorem findTechMatch_eq_some_iff (t : String) (r : String) :
    ∀ ts : List String, findTechMatch ts = some (t, r) ↔
      ∃ pre post, ts = pre ++ t :: post
        ∧ (∀ t2 ∈ pre,
            OUTDATED_TECHNOLOGIES.find? (fun pr => strContains (strLower t2) pr.1) = none)
        ∧ ∃ p, OUTDATED_TECHNOLOGIES.find?
            (fun pr => strContains (strLower t) pr.1) = some (p, r) := by
  intro ts
  induction ts with
  | nil =>
    simp only [findTechMatch]
    constructor
    · intro h; cases h
    · rintro ⟨pre, post, heq, -, -⟩
      have := congrArg List.length heq
      simp at this
      omega
  | cons t0 rest ih =>
    cases hf : OUTDATED_TECHNOLOGIES.find? (fun pr => strContains (strLower t0) pr.1) with
    | some pr =>
      simp only [findTechMatch, hf]
      constructor
      · intro h
        injection h with h
        have h1 : t0 = t := congrArg Prod.fst h
        have h2 : pr.2 = r := congrArg Prod.snd h
        subst h1; subst h2
        refine ⟨[], rest, rfl, by simp, pr.1, ?_⟩
        rw [hf]
      · rintro ⟨pre, post, heq, hpre, p, hp⟩
        cases pre with
        | nil =>
          simp only [List.nil_append, List.cons.injEq] at heq
          obtain ⟨h1, -⟩ := heq
          subst h1
          rw [hf] at hp
          injection hp with hp
          subst hp
          rfl
        | cons q pre2 =>
          simp only [List.cons_append, List.cons.injEq] at heq
          obtain ⟨h1, -⟩ := heq
          subst h1
          exact absurd hf (by simp [hpre t0 (List.mem_cons_self _ _)])
    | none =>
      simp only [findTechMatch, hf, ih]
      constructor
      · rintro ⟨pre, post, heq, hpre, p, hp⟩
        refine ⟨t0 :: pre, post, by rw [heq]; rfl, ?_, p, hp⟩
        intro t2 ht2
        rcases List.mem_cons.mp ht2 with h | h
        · subst h; exact hf
        · exact hpre t2 h
      · rintro ⟨pre, post, heq, hpre, p, hp⟩
        cases pre with
        | nil =>
          simp only [List.nil_append, List.cons.injEq] at heq
          obtain ⟨h1, -⟩ := heq
          subst h1
          rw [hf] at hp
          cases hp
        | cons q pre2 =>
          simp only [List.cons_append, List.cons.injEq] at heq
          obtain ⟨-, h2⟩ := heq
          refine ⟨pre2, post, h2, ?_, p, hp⟩
          intro t2 ht2
          exact hpre t2 (List.mem_cons_of_mem _ ht2)

theorem findTechMatch_result (t r : String) :
    ∀ ts : List String, findTechMatch ts = some (t, r) →
      t ∈ ts ∧ ∃ p, (p, r) ∈ OUTDATED_TECHNOLOGIES
        ∧ strContains (strLower t) p = true := by
  intro ts h
  obtain ⟨pre, post, heq, -, p, hp⟩ := (findTechMatch_eq_some_iff t r ts).mp h
  refine ⟨by rw [heq]; exact List.mem_append_right _ (List.mem_cons_self _ _), p, ?_, ?_⟩
  · have hm := List.mem_of_find?_eq_some hp
    have h2 : (p, r).2 = r := rfl
    exact hm
  · have := List.find?_some hp
    simpa using this

theorem guard_findTechMatch (ts : List String) :
    (if ts.isEmpty then none else findTechMatch ts) = findTechMatch ts := by
  cases ts <;> simp [findTechMatch]

/-- C4: the Outdated-Technology matcher checks `server` first against the
whole signature table in order; technologies are consulted only when the
server scan fails; within a scan the first pattern in table order wins (all
earlier table entries fail to match); the technologies are tried in sequence
order (all earlier entries have no table match); and the rule contributes at
most one factor, worth +20. -/
theorem outdated_matcher_order (w : WebServiceData) :
    (∀ te, serverScan w.server ≠ none →
        check_outdated_tech { w with technologies := te } = serverScan w.server)
      ∧ (∀ s p r, w.server = some s → strIsEmpty s = false →
          (serverScan w.server = some (p, r) ↔
            strContains (strLower s) p = true
              ∧ ∃ pre post, OUTDATED_TECHNOLOGIES = pre ++ (p, r) :: post
                  ∧ ∀ q ∈ pre, strContains (strLower s) q.1 = false))
      ∧ (∀ ts t r, serverScan w.server = none → w.technologies = some ts →
          (check_outdated_tech w = some (t, r) ↔
            ∃ pre post, ts = pre ++ t :: post
              ∧ (∀ t2 ∈ pre,
                  OUTDATED_TECHNOLOGIES.find?
                    (fun pr => strContains (strLower t2) pr.1) = none)
              ∧ ∃ p, OUTDATED_TECHNOLOGIES.find?
                  (fun pr => strContains (strLower t) pr.1) = some (p, r)))
      ∧ ((calculate_score w).factors.countP
          (fun f => f.name == "Outdated Technology") ≤ 1)
      ∧ (∀ f, outdatedFactor? w = some f → f.contribution = 20) := by
  obtain ⟨u, sc, ti, sv, te0⟩ := w
  refine ⟨?_, ?_, ?_, ?_, fun f hf => (outdatedFactor_spec _ f hf).2⟩
  · intro te h
    unfold check_outdated_tech
    cases hh : serverScan sv with
    | none => exact absurd hh h
    | some pr => rfl
  · intro s p r hs he
    subst hs
    have hred : serverScan
        ({ url := u, status_code := sc, title := ti, server := some s,
           technologies := te0 } : WebServiceData).server
        = OUTDATED_TECHNOLOGIES.find? (fun pr => strContains (strLower s) pr.1) := by
      unfold serverScan
      dsimp only
      rw [if_neg (show ¬strIsEmpty s = true by simp [he])]
    rw [hred, List.find?_eq_some]
    constructor
    · rintro ⟨h1, as, bs, h2, h3⟩
      refine ⟨h1, as, bs, h2, fun q hq => ?_⟩
      have := h3 q hq
      simpa using this
    · rintro ⟨h1, as, bs, h2, h3⟩
      refine ⟨h1, as, bs, h2, fun q hq => ?_⟩
      simp [h3 q hq]
  · intro ts t r h0 hte
    subst hte
    have hred : check_outdated_tech
        { url := u, status_code := sc, title := ti, server := sv,
          technologies := some ts }
        = if ts.isEmpty then none else findTechMatch ts := by
      unfold check_outdated_tech
      rw [h0]
    rw [hred, guard_findTechMatch]
    exact findTechMatch_eq_some_iff t r ts
  · rw [outdated_count]
    split <;> omega

/-- Witness for C4: a server-side match makes the matcher ignore the
technologies list entirely. -/
theorem outdated_matcher_order_witness :
    check_outdated_tech
        { url := "https://a", status_code := 200, server := some "PHP/5.6",
          technologies := some ["node/8"] }
      = serverScan (some "PHP/5.6") :=
  (outdated_matcher_order
      { url := "https://a", status_code := 200, server := some "PHP/5.6",
        technologies := some ["node/8"] }).1 (some ["node/8"]) (by decide)

/-- C6: a server-field match returns the (lowercase) table pattern itself as
the matched text, while a technologies match returns the original technology
string, the pattern serving only for lookup; the Outdated Technology factor's
explanation echoes the matched text. -/
theorem outdated_matched_text (w : WebServiceData) :
    (∀ pr, serverScan w.server = some pr →
        check_outdated_tech w = some pr ∧ pr ∈ OUTDATED_TECHNOLOGIES
          ∧ strLower pr.1 = pr.1)
      ∧ (∀ t r, serverScan w.server = none → check_outdated_tech w = some (t, r) →
          ∃ ts, w.technologies = some ts ∧ t ∈ ts
            ∧ ∃ p, (p, r) ∈ OUTDATED_TECHNOLOGIES ∧ strContains (strLower t) p = true)
      ∧ (∀ f pr, check_outdated_tech w = some pr → outdatedFactor? w = some f →
          f.explanation = "Detected \x27" ++ pr.1 ++ "\x27: " ++ pr.2) := by
  obtain ⟨u, sc, ti, sv, te0⟩ := w
  refine ⟨?_, ?_, ?_⟩
  · intro pr hpr
    have hlow : ∀ q ∈ OUTDATED_TECHNOLOGIES, strLower q.1 = q.1 := by decide
    have hc : check_outdated_tech
        { url := u, status_code := sc, title := ti, server := sv,
          technologies := te0 } = some pr := by
      unfold check_outdated_tech; rw [hpr]
    refine ⟨hc, ?_, ?_⟩
    · unfold serverScan at hpr
      cases sv with
      | none => cases hpr
      | some s =>
        dsimp only at hpr
        by_cases he : strIsEmpty s = true
        · rw [if_pos he] at hpr; cases hpr
        · rw [if_neg he] at hpr
          exact List.mem_of_find?_eq_some hpr
    · apply hlow
      unfold serverScan at hpr
      cases sv with
      | none => cases hpr
      | some s =>
        dsimp only at hpr
        by_cases he : strIsEmpty s = true
        · rw [if_pos he] at hpr; cases hpr
        · rw [if_neg he] at hpr
          exact List.mem_of_find?_eq_some hpr
  · intro t r h0 hc
    unfold check_outdated_tech at hc
    rw [h0] at hc
    cases te0 with
    | none => cases hc
    | some ts =>
      dsimp only at hc
      rw [guard_findTechMatch] at hc
      obtain ⟨hmem, p, hp, hsub⟩ := findTechMatch_result t r ts hc
      exact ⟨ts, rfl, hmem, p, hp, hsub⟩
  · intro f pr hc hf
    unfold outdatedFactor? at hf
    rw [hc] at hf
    injection hf with hf
    rw [← hf]

/-- Witness for C6 at a concrete server-side match. -/
theorem outdated_matched_text_witness :
    check_outdated_tech
        { url := "u", status_code := 200, server := some "Apache/2.2.3" }
      = some ("apache/2.2", "Apache 2.2.x is end-of-life since July 2017") :=
  ((outdated_matched_text
      { url := "u", status_code := 200, server := some "Apache/2.2.3" }).1
    ("apache/2.2", "Apache 2.2.x is end-of-life since July 2017") (by decide)).1

theorem contribOpt_liveFactor (v : WebServiceData) :
    contribOpt (liveFactor? v) = if (liveFactor? v).isSome then 30 else 0 := by
  cases h : liveFactor? v with
  | none => rfl
  | some f => simp [contribOpt, (liveFactor_spec v f h).2]

theorem contribOpt_nonProdFactor (v : WebServiceData) :
    contribOpt (nonProdFactor? v) = if (nonProdFactor? v).isSome then 15 else 0 := by
  cases h : nonProdFactor? v with
  | none => rfl
  | some f => simp [contribOpt, (nonProdFactor_spec v f h).2]

theorem contribOpt_versionFactor (v : WebServiceData) :
    contribOpt (versionFactor? v) = if (versionFactor? v).isSome then 10 else 0 := by
  cases h : versionFactor? v with
  | none => rfl
  | some f => simp [contribOpt, (versionFactor_spec v f h).2]

theorem contribOpt_outdatedFactor (v : WebServiceData) :
    contribOpt (outdatedFactor? v) = if (outdatedFactor? v).isSome then 20 else 0 := by
  cases h : outdatedFactor? v with
  | none => rfl
  | some f => simp [contribOpt, (outdatedFactor_spec v f h).2]

theorem contribOpt_noHttpsFactor (v : WebServiceData) :
    contribOpt (noHttpsFactor? v) = if (noHttpsFactor? v).isSome then 15 else 0 := by
  cases h : noHttpsFactor? v with
  | none => rfl
  | some f => simp [contribOpt, (noHttpsFactor_spec v f h).2]

theorem contribOpt_dirListingFactor (v : WebServiceData) :
    contribOpt (dirListingFactor? v) = if (dirListingFactor? v).isSome then 10 else 0 := by
  cases h : dirListingFactor? v with
  | none => rfl
  | some f => simp [contribOpt, (dirListingFactor_spec v f h).2]

theorem sumOpts_ruleList (v : WebServiceData) :
    sumOpts (ruleList v)
      = (if (liveFactor? v).isSome then 30 else 0)
        + (if (nonProdFactor? v).isSome then 15 else 0)
        + (if (versionFactor? v).isSome then 10 else 0)
        + (if (outdatedFactor? v).isSome then 20 else 0)
        + (if (noHttpsFactor? v).isSome then 15 else 0)
        + (if (dirListingFactor? v).isSome then 10 else 0) := by
  simp only [sumOpts, ruleList, List.map_cons, List.map_nil, List.sum_cons,
    List.sum_nil, contribOpt_liveFactor, contribOpt_nonProdFactor,
    contribOpt_versionFactor, contribOpt_outdatedFactor, contribOpt_noHttpsFactor,
    contribOpt_dirListingFactor]
  omega

/-- C8 counterexample: at the signal
`{url: "https://staging.example.com", statusCode: 200, server: "nginx/1.0.5"}`
(score 95, cap not active), switching the url scheme to `http://` makes
exactly No HTTPS (+15) additionally trigger, yet the score rises only to
100 — an increase of 5, not the rule's 15 points. -/
theorem monotone_single_rule_counterexample :
    ((calculate_score
        { url := "https://staging.example.com", status_code := 200,
          server := some "nginx/1.0.5" }).score = 95)
      ∧ ((calculate_score
          { url := "http://staging.example.com", status_code := 200,
            server := some "nginx/1.0.5" }).score = 100)
      ∧ ((noHttpsFactor?
          { url := "https://staging.example.com", status_code := 200,
            server := some "nginx/1.0.5" }).isSome = false)
      ∧ ((noHttpsFactor?
          { url := "http://staging.example.com", status_code := 200,
            server := some "nginx/1.0.5" }).isSome = true)
      ∧ (∀ j, j < 6 → j ≠ 4 →
          ((ruleList
              { url := "http://staging.example.com", status_code := 200,
                server := some "nginx/1.0.5" }).getD j none).isSome
            = ((ruleList
                { url := "https://staging.example.com", status_code := 200,
                  server := some "nginx/1.0.5" }).getD j none).isSome)
      ∧ ((calculate_score
            { url := "http://staging.example.com", status_code := 200,
              server := some "nginx/1.0.5" }).score
          ≠ (calculate_score
              { url := "https://staging.example.com", status_code := 200,
                server := some "nginx/1.0.5" }).score + 15)
      ∧ ((calculate_score
            { url := "https://staging.example.com", status_code := 200,
              server := some "nginx/1.0.5" }).score < 100) := by
  decide

/-- C8 (amended): making exactly one more rule trigger (all other rules'
trigger statuses unchanged) never decreases the score; the new score is
`min(100, old raw total + the rule's points)`, so it rises by exactly the
rule's point value whenever that stays within the 100-point cap, and is
clamped to at most 100 otherwise. -/
theorem monotone_single_rule (w w' : WebServiceData) (k : Nat) (hk : k < 6)
    (hoth : ∀ j, j < 6 → j ≠ k →
      ((ruleList w').getD j none).isSome = ((ruleList w).getD j none).isSome)
    (hoff : ((ruleList w).getD k none).isSome = false)
    (hon : ((ruleList w').getD k none).isSome = true) :
    (calculate_score w).score ≤ (calculate_score w').score
      ∧ (calculate_score w').score
          = min 100 (BASE_SCORE + sumOpts (ruleList w) + rulePoints.getD k 0)
      ∧ (BASE_SCORE + sumOpts (ruleList w) + rulePoints.getD k 0 ≤ 100 →
          (calculate_score w').score
            = (calculate_score w).score + rulePoints.getD k 0)
      ∧ (calculate_score w').score ≤ 100 := by
  have hS : sumOpts (ruleList w')
      = sumOpts (ruleList w) + rulePoints.getD k 0 := by
    interval_cases k
    · have h1 := hoth 1 (by omega) (by omega)
      have h2 := hoth 2 (by omega) (by omega)
      have h3 := hoth 3 (by omega) (by omega)
      have h4 := hoth 4 (by omega) (by omega)
      have h5 := hoth 5 (by omega) (by omega)
      simp only [ruleList, List.getD_cons_zero, List.getD_cons_succ]
        at h1 h2 h3 h4 h5 hoff hon
      rw [sumOpts_ruleList, sumOpts_ruleList, h1, h2, h3, h4, h5, hoff, hon]
      simp [rulePoints]
      try omega
    · have h1 := hoth 0 (by omega) (by omega)
      have h2 := hoth 2 (by omega) (by omega)
      have h3 := hoth 3 (by omega) (by omega)
      have h4 := hoth 4 (by omega) (by omega)
      have h5 := hoth 5 (by omega) (by omega)
      simp only [ruleList, List.getD_cons_zero, List.getD_cons_succ]
        at h1 h2 h3 h4 h5 hoff hon
      rw [sumOpts_ruleList, sumOpts_ruleList, h1, h2, h3, h4, h5, hoff, hon]
      simp [rulePoints]
      try omega
    · have h1 := hoth 0 (by omega) (by omega)
      have h2 := hoth 1 (by omega) (by omega)
      have h3 := hoth 3 (by omega) (by omega)
      have h4 := hoth 4 (by omega) (by omega)
      have h5 := hoth 5 (by omega) (by omega)
      simp only [ruleList, List.getD_cons_zero, List.getD_cons_succ]
        at h1 h2 h3 h4 h5 hoff hon
      rw [sumOpts_ruleList, sumOpts_ruleList, h1, h2, h3, h4, h5, hoff, hon]
      simp [rulePoints]
      try omega
    · have h1 := hoth 0 (by omega) (by omega)
      have h2 := hoth 1 (by omega) (by omega)
      have h3 := hoth 2 (by omega) (by omega)
      have h4 := hoth 4 (by omega) (by omega)
      have h5 := hoth 5 (by omega) (by omega)
      simp only [ruleList, List.getD_cons_zero, List.getD_cons_succ]
        at h1 h2 h3 h4 h5 hoff hon
      rw [sumOpts_ruleList, sumOpts_ruleList, h1, h2, h3, h4, h5, hoff, hon]
      simp [rulePoints]
      try omega
    · have h1 := hoth 0 (by omega) (by omega)
      have h2 := hoth 1 (by omega) (by omega)
      have h3 := hoth 2 (by omega) (by omega)
      have h4 := hoth 3 (by omega) (by omega)
      have h5 := hoth 5 (by omega) (by omega)
      simp only [ruleList, List.getD_cons_zero, List.getD_cons_succ]
        at h1 h2 h3 h4 h5 hoff hon
      rw [sumOpts_ruleList, sumOpts_ruleList, h1, h2, h3, h4, h5, hoff, hon]
      simp [rulePoints]
      try omega
    · have h1 := hoth 0 (by omega) (by omega)
      have h2 := hoth 1 (by omega) (by omega)
      have h3 := hoth 2 (by omega) (by omega)
      have h4 := hoth 3 (by omega) (by omega)
      have h5 := hoth 4 (by omega) (by omega)
      simp only [ruleList, List.getD_cons_zero, List.getD_cons_succ]
        at h1 h2 h3 h4 h5 hoff hon
      rw [sumOpts_ruleList, sumOpts_ruleList, h1, h2, h3, h4, h5, hoff, hon]
      simp [rulePoints]
      try omega
  rw [calculate_score_score w, calculate_score_score w', hS]
  simp only [BASE_SCORE]
  refine ⟨?_, ?_, ?_, ?_⟩ <;> omega

/-- Witness for the amended C8: turning Live Service on (404 → 200) with all
other rule statuses unchanged. -/
theorem monotone_single_rule_witness :
    (calculate_score { url := "https://clean.example.com", status_code := 404 }).score
      ≤ (calculate_score { url := "https://clean.example.com", status_code := 200 }).score :=
  (monotone_single_rule
      { url := "https://clean.example.com", status_code := 404 }
      { url := "https://clean.example.com", status_code := 200 }
      0 (by omega) (by decide) (by decide) (by decide)).1

/-- C9: the documented example
`{url: "http://staging.example.com", statusCode: 200, server: "nginx/1.0.5"}`
triggers exactly Live Service, Non-Production Exposed, Version Disclosure,
Outdated Technology (matching `nginx/1.0`) and No HTTPS, in that order,
with raw total 110 capped to a final score of 100. -/
theorem staging_nginx_example :
    ((calculate_score
        { url := "http://staging.example.com", status_code := 200,
          server := some "nginx/1.0.5" }).score = 100)
      ∧ ((calculate_score
          { url := "http://staging.example.com", status_code := 200,
            server := some "nginx/1.0.5" }).factors.map
            (fun f => (f.name, f.contribution))
          = [("Live Service", 30), ("Non-Production Exposed", 15),
             ("Version Disclosure", 10), ("Outdated Technology", 20),
             ("No HTTPS", 15)])
      ∧ (check_outdated_tech
          { url := "http://staging.example.com", status_code := 200,
            server := some "nginx/1.0.5" }
          = some ("nginx/1.0", "Nginx 1.0x is significantly outdated"))
      ∧ (BASE_SCORE + sumContrib
          (calculate_score
            { url := "http://staging.example.com", status_code := 200,
              server := some "nginx/1.0.5" }).factors = 110) := by
  decide

end ExposureGraph
